import Mathlib

/-!
Verification development for the neodb-to-AniList migration scripts.

The definitions below are a shallow embedding of `smart_convert_v2.py`
(class `SmartMALToAniListConverter`) and `step2_map_to_anilist.py`
(class `IMDBToAniListMapper`).  Python strings are Lean `String`s,
Python dicts used as caches/maps are association lists with
first-match lookup, network I/O is replaced by explicit oracle
functions, and ghost counters record how many network requests each
code path issues.  Regular-expression operations from the source are
embedded as executable character-list scanners with the same
left-to-right, non-overlapping match semantics.
-/

namespace NeodbApi

/-! ## String utilities shared by both scripts -/

/-- Python `\s` for the whitespace characters that `str.strip` and the
`\s*` regex pieces remove (ASCII subset; the titles handled by the
scripts contain no exotic Unicode whitespace). -/
def isPySpace (c : Char) : Bool :=
  c = ' ' || c = '\t' || c = '\n' || c = '\r' || c = '\x0b' || c = '\x0c'

/-- `listIsPrefixOf p l` : `p` is a prefix of `l` (Python `str.startswith`). -/
def listIsPrefixOf : List Char → List Char → Bool
  | [], _ => true
  | _ :: _, [] => false
  | a :: as, b :: bs => a = b && listIsPrefixOf as bs

/-- `listContainsSub hay sub` : `sub` occurs as a contiguous substring of
`hay` (Python `sub in hay`). -/
def listContainsSub : List Char → List Char → Bool
  | [], sub => sub.isEmpty
  | c :: t, sub => listIsPrefixOf sub (c :: t) || listContainsSub t sub

/-- Python `sub in hay` on strings. -/
def containsSubstr (hay sub : String) : Bool :=
  listContainsSub hay.data sub.data

/-- Python `str.lower()` (ASCII case folding; the CJK characters used by
the keyword tables are unaffected by lowering). -/
def lowerStr (s : String) : String :=
  ⟨s.data.map Char.toLower⟩

/-- Python `str.strip()`. -/
def pyStrip (s : String) : String :=
  ⟨((s.data.dropWhile isPySpace).reverse.dropWhile isPySpace).reverse⟩

/-- Membership of a string in a list of strings (Python `x in xs`). -/
def strMem (s : String) : List String → Bool
  | [] => false
  | t :: rest => s = t || strMem s rest

/-- One attempt of the regex `\s*\([^)]*\)` anchored at the head of the
list: greedily consume whitespace, an opening parenthesis, a maximal run
of non-`)` characters, and the closing parenthesis; return the remainder
on success.  Greedy matching is exact here because `(` is not whitespace
and `)` is excluded from the inner class. -/
def matchParenAt (cs : List Char) : Option (List Char) :=
  match cs.dropWhile isPySpace with
  | '(' :: rest =>
    match rest.dropWhile (fun c => !(c = ')')) with
    | ')' :: rem => some rem
    | _ => none
  | _ => none

/-- Fuel-driven scanner implementing `re.sub(r'\s*\([^)]*\)', '', s)`:
leftmost, non-overlapping matches are deleted.  Every step consumes at
least one character, so `fuel = cs.length` always suffices. -/
def stripParensGo : Nat → List Char → List Char
  | _, [] => []
  | 0, cs => cs
  | fuel + 1, c :: cs =>
    match matchParenAt (c :: cs) with
    | some rem => stripParensGo fuel rem
    | none => c :: stripParensGo fuel cs

/-- `re.sub(r'\s*\([^)]*\)', '', s)` from the source. -/
def stripParens (s : String) : String :=
  ⟨stripParensGo s.data.length s.data⟩

/-- The character class `[一二三四五六七八九十\d]` of the season regex. -/
def isSeasonNum (c : Char) : Bool :=
  c.isDigit || c = '一' || c = '二' || c = '三' || c = '四' || c = '五' ||
  c = '六' || c = '七' || c = '八' || c = '九' || c = '十'

/-- One attempt of `\s*第[一二三四五六七八九十\d]+季?` anchored at the head. -/
def matchSeasonAt (cs : List Char) : Option (List Char) :=
  match cs.dropWhile isPySpace with
  | '第' :: rest =>
    if (rest.takeWhile isSeasonNum).isEmpty then none
    else
      match rest.dropWhile isSeasonNum with
      | '季' :: rem => some rem
      | after => some after
  | _ => none

/-- Fuel-driven scanner implementing
`re.sub(r'\s*第[一二三四五六七八九十\d]+季?', '', s)`. -/
def stripSeasonGo : Nat → List Char → List Char
  | _, [] => []
  | 0, cs => cs
  | fuel + 1, c :: cs =>
    match matchSeasonAt (c :: cs) with
    | some rem => stripSeasonGo fuel rem
    | none => c :: stripSeasonGo fuel cs

/-- `re.sub(r'\s*第[一二三四五六七八九十\d]+季?', '', s)` from the source. -/
def stripSeason (s : String) : String :=
  ⟨stripSeasonGo s.data.length s.data⟩

/-- A character accepted by `^[a-zA-Z0-9\s\-:!?.,()&]+$` in
`get_best_english_title`. -/
def isEnglishChar (c : Char) : Bool :=
  (c.isUpper || c.isLower) || c.isDigit || isPySpace c ||
  c = '-' || c = ':' || c = '!' || c = '?' || c = '.' || c = ',' ||
  c = '(' || c = ')' || c = '&'

/-- `re.match(r'^[a-zA-Z0-9\s\-:!?.,()&]+$', t)` succeeds. -/
def isEnglishTitle (t : String) : Bool :=
  !t.data.isEmpty && t.data.all isEnglishChar

/-- Digit run to a number (`int(...)` on an all-digit string). -/
def digitsToNat (cs : List Char) : Nat :=
  cs.foldl (fun n c => n * 10 + (c.toNat - 48)) 0

/-- Python `rating and rating.isdigit()`. -/
def pyIsDigitStr (s : String) : Bool :=
  !s.data.isEmpty && s.data.all Char.isDigit

/-! ## Data model: remote match results and the resolution cache -/

/-- The `title` sub-dict of an AniList media result. -/
structure Titles where
  english : Option String
  romaji : Option String
  native : Option String
deriving DecidableEq, Repr

/-- The projection of an AniList media entry that the scripts store in
the cache and read back out. -/
structure MatchResult where
  id : Nat
  title : Titles
  year : Option Int
  averageScore : Option Nat
deriving DecidableEq, Repr

/-- `search_cache` : a JSON object mapping a search string to a media
dict or to JSON `null` (an explicit cached no-match).  Modelled as an
association list with first-match lookup; `cachePut` prepends, which is
lookup-equivalent to a Python dict store. -/
abbrev Cache : Type := List (String × Option MatchResult)

def emptyCache : Cache := []

/-- Three-valued read: `none` = key never written (Python `k not in d`),
`some none` = cached no-match (`d[k] is None`), `some (some r)` = cached
hit. -/
def cacheGet (c : Cache) (k : String) : Option (Option MatchResult) :=
  match c with
  | [] => none
  | (k', v) :: rest => if k' = k then some v else cacheGet rest k

/-- Python `k in d`. -/
def cacheMem (c : Cache) (k : String) : Bool :=
  (cacheGet c k).isSome

/-- Python `d[k] = v` (write-through store; the disk flush carries no
separate state in this embedding). -/
def cachePut (c : Cache) (k : String) (v : Option MatchResult) : Cache :=
  (k, v) :: c

/-! ## Remote Lookup Client (`search_anilist_by_title`, smart_convert_v2) -/

/-- Outcome of one AniList search POST, as distinguished by the source:
HTTP 200 with a (possibly empty) media list, HTTP 429, any other
non-200 status, or a transport-level exception. -/
inductive SearchResponse where
  | ok (results : List MatchResult)
  | rateLimited
  | httpError (code : Nat)
  | exc
deriving DecidableEq, Repr

/-- `search_anilist_by_title` (smart_convert_v2.py lines 169-223): on a
200 response the first candidate (or an explicit `None`) is written to
the cache; on 429, other HTTP errors and exceptions nothing is cached
and `None` is returned. -/
def searchAnilistByTitle (title : String) (resp : SearchResponse) (c : Cache) :
    Option MatchResult × Cache :=
  match resp with
  | .ok (r :: _) => (some r, cachePut c title (some r))
  | .ok [] => (none, cachePut c title none)
  | .rateLimited => (none, c)
  | .httpError _ => (none, c)
  | .exc => (none, c)

/-! ## Record Classifier (`is_likely_anime`, `is_likely_manga`) -/

/-- `anime_keywords` from `is_likely_anime`. -/
def animeKeywords : List String :=
  ["season", "第一季", "第二季", "第三季", "第四季",
   "ova", "tv", "劇場版", "特別篇", "番外篇",
   "動畫", "anime", "第一部", "第二部"]

/-- `manga_keywords` from `is_likely_manga`. -/
def mangaKeywords : List String := ["漫畫", "manga", "comic"]

/-- A character of the Japanese kana ranges `[぀-ゟ゠-ヿ]`. -/
def isKana (c : Char) : Bool :=
  (0x3040 ≤ c.toNat && c.toNat ≤ 0x309F) || (0x30A0 ≤ c.toNat && c.toNat ≤ 0x30FF)

/-- `re.search(r'[぀-ゟ゠-ヿ]', s)` succeeds. -/
def hasKana (s : String) : Bool :=
  s.data.any isKana

/-- Kana or a CJK unified ideograph, the class
`[぀-ゟ゠-ヿ一-鿿]` of the author regex. -/
def isCJKOrKana (c : Char) : Bool :=
  isKana c || (0x4e00 ≤ c.toNat && c.toNat ≤ 0x9fff)

/-- After `author:`, `[^,]*` then one CJK character: true when a CJK/kana
character occurs before the next comma (or end of string). -/
def cjkBeforeComma : List Char → Bool
  | [] => false
  | c :: rest => if c = ',' then false else isCJKOrKana c || cjkBeforeComma rest

/-- `re.search(r'author:[^,]*[぀-ゟ゠-ヿ一-鿿]', info)`
succeeds. -/
def authorCJKGo : List Char → Bool
  | [] => false
  | c :: t =>
    (listIsPrefixOf "author:".data (c :: t) && cjkBeforeComma ((c :: t).drop 7)) ||
    authorCJKGo t

def authorCJK (info : String) : Bool := authorCJKGo info.data

/-- `re.search(r'.*第\d+季', title)` succeeds, i.e. `第`, one or more
ASCII digits, then `季` occur contiguously somewhere in the title. -/
def hasDigitSeason : List Char → Bool
  | [] => false
  | '第' :: rest =>
    (!(rest.takeWhile Char.isDigit).isEmpty &&
      (match rest.dropWhile Char.isDigit with
       | '季' :: _ => true
       | _ => false)) ||
    hasDigitSeason rest
  | _ :: rest => hasDigitSeason rest

/-- The `anime_patterns` loop of `is_likely_anime`: `.*第\d+季`, `.*OVA`,
`.*劇場版`, `.*特別篇` searched in order. -/
def animePatterns (title : String) : Bool :=
  hasDigitSeason title.data || containsSubstr title "OVA" ||
  containsSubstr title "劇場版" || containsSubstr title "特別篇"

/-- `is_likely_anime` (smart_convert_v2.py lines 285-317). -/
def isLikelyAnime (title info links : String) : Bool :=
  if containsSubstr links "bgm.tv" then true
  else if animeKeywords.any (fun k => containsSubstr (lowerStr title) k) then true
  else if hasKana title then true
  else if animePatterns title then true
  else false

/-- `is_likely_manga` (convert_manga_to_anilist.py lines 98-121). -/
def isLikelyManga (title info links : String) : Bool :=
  if containsSubstr links "bgm.tv" then true
  else if mangaKeywords.any (fun k => containsSubstr (lowerStr title) k) then true
  else if containsSubstr info "author:" then
    authorCJK info && hasKana title
  else false

/-- Modelled from the spec: the Record Classifier contract of §4.1 /
claim C7, over a given keyword table — (1) links carry the `bgm.tv`
marker, or (2) the lowercased title contains a keyword, or (3) the
annotation has an `author:` field with a CJK value and the title has
CJK (kana) characters. -/
def classifySpec (keywords : List String) (title info links : String) : Bool :=
  containsSubstr links "bgm.tv" ||
  keywords.any (fun k => containsSubstr (lowerStr title) k) ||
  (authorCJK info && hasKana title)

/-- `convert_status` (smart_convert_v2.py lines 225-233). -/
def convertStatus (s : String) : String :=
  if s = "complete" then "COMPLETED"
  else if s = "progress" then "CURRENT"
  else if s = "wishlist" then "PLANNING"
  else if s = "dropped" then "DROPPED"
  else "PLANNING"

/-! ## Identifier Extractor (`extract_ids_from_info`, `extract_ids_from_links`) -/

/-- Scan for the literal `pat`, then capture the maximal nonempty ASCII
digit run that follows; first (leftmost) successful match wins, exactly
like `re.search(pat ++ r'(\d+)', s)`. -/
def captureDigitsAfter (pat : List Char) : List Char → Option String
  | [] => none
  | c :: t =>
    if listIsPrefixOf pat (c :: t) then
      let ds := ((c :: t).drop pat.length).takeWhile Char.isDigit
      if ds.isEmpty then captureDigitsAfter pat t else some ⟨ds⟩
    else captureDigitsAfter pat t

/-- `re.search(r'imdb:(tt\d+)', info)`: the captured group keeps the
`tt` prefix. -/
def extractImdbFromInfo : List Char → Option String
  | [] => none
  | c :: t =>
    if listIsPrefixOf "imdb:tt".data (c :: t) then
      let ds := ((c :: t).drop 7).takeWhile Char.isDigit
      if ds.isEmpty then extractImdbFromInfo t else some ("tt" ++ (⟨ds⟩ : String))
    else extractImdbFromInfo t

/-- `re.search(r'year:(\d{4})', info)`: the literal followed by exactly
four digits captured. -/
def extractYearFromInfo : List Char → Option String
  | [] => none
  | c :: t =>
    if listIsPrefixOf "year:".data (c :: t) then
      let ds := ((c :: t).drop 5).take 4
      if ds.length = 4 && ds.all Char.isDigit then some ⟨ds⟩
      else extractYearFromInfo t
    else extractYearFromInfo t

/-- The external-identifier namespaces the scripts extract.  Python
merges `{**info_ids, **link_ids}`; the two probes touch disjoint keys,
so the merge is a plain record. -/
structure ExternalIds where
  imdb : Option String := none
  year : Option String := none
  bgm : Option String := none
  douban : Option String := none
  tmdb : Option String := none
deriving DecidableEq, Repr

/-- `extract_ids_from_info` + `extract_ids_from_links`
(smart_convert_v2.py lines 132-167) merged as in `parse_csv_file`. -/
def extractExternalIds (info links : String) : ExternalIds :=
  { imdb := extractImdbFromInfo info.data
    year := extractYearFromInfo info.data
    bgm := captureDigitsAfter "bgm.tv/subject/".data links.data
    douban := captureDigitsAfter "movie.douban.com/subject/".data links.data
    tmdb := captureDigitsAfter "themoviedb.org/tv/".data links.data }

/-! ## CandidateRecord construction (`parse_csv_file`) -/

/-- One CSV row as `parse_csv_file` reads it (`row.get` defaults already
applied by the construction site). -/
structure CsvRow where
  title : String
  info : String := ""
  links : String := ""
  status : String := "wishlist"
  rating : String := ""
deriving DecidableEq, Repr

/-- The `anime_data` dict built by `parse_csv_file`
(smart_convert_v2.py lines 253-283). -/
structure Anime where
  title : String
  status : String
  score : Option Nat
  progress : Nat
  externalIds : ExternalIds
  sourceFile : String
deriving DecidableEq, Repr

/-- One loop body of `parse_csv_file`: classify, then convert status and
rating and extract identifiers. -/
def parseRow (filename : String) (row : CsvRow) : Option Anime :=
  if isLikelyAnime row.title row.info row.links then
    some
      { title := row.title
        status := convertStatus row.status
        score := if pyIsDigitStr row.rating then some (digitsToNat row.rating.data) else none
        progress := 0
        externalIds := extractExternalIds row.info row.links
        sourceFile := filename }
  else none

/-! ## Reconciliation Driver (`convert_to_anilist`, smart_convert_v2) -/

/-- The deterministic environment standing in for the network: IMDB and
TMDB title lookups and the AniList search endpoint keyed by the search
string. -/
structure Oracles where
  imdbTitle : String → Option String
  tmdbTitle : String → Option String
  searchResp : String → SearchResponse

/-- Python truthiness of `anime['score']` (an `int` or `None`): the
score field is attached to an output dict only when nonzero. -/
def truthyScore (a : Anime) : Option Nat :=
  match a.score with
  | some s => if s = 0 then none else some s
  | none => none

/-- The final fallback of `get_best_english_title` (lines 127-130):
parentheses stripped, then season tokens stripped, trimmed each time. -/
def gbetFallback (a : Anime) : String :=
  pyStrip (stripSeason (pyStrip (stripParens a.title)))

/-- The TMDB leg of `get_best_english_title` (lines 117-130), entered
after the IMDB leg produced nothing truthy; `di` is the number of IMDB
fetches already issued.  A present-but-empty fetched title is falsy in
Python and falls through to the cleaned fallback. -/
def gbetTmdb (o : Oracles) (a : Anime) (di : Nat) : String × Nat × Nat :=
  match a.externalIds.tmdb with
  | some tid =>
    match o.tmdbTitle tid with
    | some t => if t ≠ "" then (t, di, 1) else (gbetFallback a, di, 1)
    | none => (gbetFallback a, di, 1)
  | none => (gbetFallback a, di, 0)

/-- `get_best_english_title` (smart_convert_v2.py lines 93-130).
Returns the chosen search title together with the number of IMDB and
TMDB page fetches issued. -/
def getBestEnglishTitle (o : Oracles) (c : Cache) (a : Anime) : String × Nat × Nat :=
  if cacheMem c a.title then (a.title, 0, 0)
  else if isEnglishTitle a.title then (a.title, 0, 0)
  else
    match a.externalIds.imdb with
    | some iid =>
      match o.imdbTitle iid with
      | some t => if t ≠ "" then (t, 1, 0) else gbetTmdb o a 1
      | none => gbetTmdb o a 1
    | none => gbetTmdb o a 0

/-- `anime['title'].split('第')[0].strip()`. -/
def baseTitle (title : String) : String :=
  pyStrip ⟨title.data.takeWhile (fun c => !(c = '第'))⟩

/-- `re.sub(r'\s*\([^)]*\)', '', anime['title']).strip()`. -/
def cleanOriginal (title : String) : String :=
  pyStrip (stripParens title)

/-- The `search_attempts` list built in the driver loop
(smart_convert_v2.py lines 337-353): english title, the raw title when
different, the pre-`第` prefix when the marker is present, and the
parentheses-stripped title, each appended only when not already
present. -/
def buildSearchAttempts (english title : String) : List String :=
  let a2 := if title = english then [english] else [english, title]
  let a3 :=
    if title.data.contains '第' && !(strMem (baseTitle title) a2) then
      a2 ++ [baseTitle title]
    else a2
  if !(strMem (cleanOriginal title) a3) then a3 ++ [cleanOriginal title] else a3

/-- The `all_cached` / `has_null_cache` scan (smart_convert_v2.py lines
355-363): break at the first nonempty uncached attempt, record whether a
nonempty cached attempt held `None`. -/
def cacheStatus (c : Cache) (hasNull : Bool) : List String → Bool × Bool
  | [] => (true, hasNull)
  | t :: rest =>
    if t = "" then cacheStatus c hasNull rest
    else
      match cacheGet c t with
      | none => (false, hasNull)
      | some none => cacheStatus c true rest
      | some (some _) => cacheStatus c hasNull rest

/-- The lookup loop of the `elif all_cached` branch (lines 388-415):
first nonempty attempt with a truthy cached value. -/
def findCachedHit (c : Cache) : List String → Option (String × MatchResult)
  | [] => none
  | t :: rest =>
    if t = "" then findCachedHit c rest
    else
      match cacheGet c t with
      | some (some r) => some (t, r)
      | _ => findCachedHit c rest

/-- The `else` walk (lines 417-434): skip empty attempts, use cached
hits without a network call, continue over cached no-matches, search the
network for uncached attempts (counting one call each) and stop at the
first non-null result. -/
def walkAttempts (o : Oracles) (c : Cache) (calls : Nat) :
    List String → Option MatchResult × Cache × Nat
  | [] => (none, c, calls)
  | t :: rest =>
    if t = "" then walkAttempts o c calls rest
    else
      match cacheGet c t with
      | some (some r) => (some r, c, calls)
      | some none => walkAttempts o c calls rest
      | none =>
        match searchAnilistByTitle t (o.searchResp t) c with
        | (some r, c') => (some r, c', calls + 1)
        | (none, c') => walkAttempts o c' (calls + 1) rest

/-- A `converted_anime` dict (lines 393-409 / 437-456). -/
structure ConvertedAnime where
  mediaId : Nat
  status : String
  progress : Nat
  originalTitle : String
  searchTitle : String
  sourceFile : String
  externalIds : ExternalIds
  infoTitle : Titles
  infoYear : Option Int
  infoAverageScore : Option Nat
  score : Option Nat
deriving DecidableEq, Repr

/-- A `failed_anime` dict (lines 369-380 / 463-474). -/
structure FailedAnime where
  originalTitle : String
  searchTitle : String
  sourceFile : String
  externalIds : ExternalIds
  status : String
  progress : Nat
  score : Option Nat
deriving DecidableEq, Repr

def mkConverted (a : Anime) (searchTitle : String) (r : MatchResult) : ConvertedAnime :=
  { mediaId := r.id
    status := a.status
    progress := a.progress
    originalTitle := a.title
    searchTitle := searchTitle
    sourceFile := a.sourceFile
    externalIds := a.externalIds
    infoTitle := r.title
    infoYear := r.year
    infoAverageScore := r.averageScore
    score := truthyScore a }

def mkFailed (a : Anime) (searchTitle : String) : FailedAnime :=
  { originalTitle := a.title
    searchTitle := searchTitle
    sourceFile := a.sourceFile
    externalIds := a.externalIds
    status := a.status
    progress := a.progress
    score := truthyScore a }

/-- The mutable state of one `convert_to_anilist` run, with ghost
counters for the three kinds of network requests and for the extra
append performed by the all-cached hit path. -/
structure RunState where
  cache : Cache
  anilistCalls : Nat
  imdbCalls : Nat
  tmdbCalls : Nat
  converted : List ConvertedAnime
  failed : List FailedAnime
  skipped : Nat
  doubleAppends : Nat
deriving DecidableEq

def initState (c : Cache) : RunState :=
  { cache := c, anilistCalls := 0, imdbCalls := 0, tmdbCalls := 0
    converted := [], failed := [], skipped := 0, doubleAppends := 0 }

/-- One iteration of the driver loop (smart_convert_v2.py lines
331-475).  Three branches: all attempts cached with a `None` among them
(record as failed and `continue`); all attempts cached with no `None`
(take the first cached hit — the entry is appended inside the branch
and then, because this branch does not `continue`, appended again by the
trailing `if result:` block); otherwise walk the attempts, searching the
network for uncached ones. -/
def processAnime (o : Oracles) (st : RunState) (a : Anime) : RunState :=
  let gbt := getBestEnglishTitle o st.cache a
  let english := gbt.1
  let st :=
    { st with imdbCalls := st.imdbCalls + gbt.2.1, tmdbCalls := st.tmdbCalls + gbt.2.2 }
  let attempts := buildSearchAttempts english a.title
  let status := cacheStatus st.cache false attempts
  if status.1 && status.2 then
    { st with skipped := st.skipped + 1, failed := st.failed ++ [mkFailed a english] }
  else if status.1 then
    match findCachedHit st.cache attempts with
    | some (t, r) =>
      { st with
        skipped := st.skipped + 1
        converted := st.converted ++ [mkConverted a t r, mkConverted a english r]
        doubleAppends := st.doubleAppends + 1 }
    | none =>
      { st with skipped := st.skipped + 1, failed := st.failed ++ [mkFailed a english] }
  else
    match walkAttempts o st.cache 0 attempts with
    | (some r, c', dcalls) =>
      { st with
        cache := c'
        anilistCalls := st.anilistCalls + dcalls
        converted := st.converted ++ [mkConverted a english r] }
    | (none, c', dcalls) =>
      { st with
        cache := c'
        anilistCalls := st.anilistCalls + dcalls
        failed := st.failed ++ [mkFailed a english] }

/-- The full driver loop over the candidate list. -/
def runConvert (o : Oracles) (c0 : Cache) (animes : List Anime) : RunState :=
  animes.foldl (processAnime o) (initState c0)

/-- One entry of `anilistImport.lists[0].entries`. -/
structure ImportEntry where
  mediaId : Nat
  status : String
  progress : Nat
  score : Option Nat
deriving DecidableEq, Repr

/-- The `metadata` block of the output document (the `convertedAt`
wall-clock timestamp is outside the model). -/
structure ReportMetadata where
  totalProcessed : Nat
  successfullyConverted : Nat
  failed : Nat
  skipped : Nat
deriving DecidableEq, Repr

/-- The `result_data` document written at the end of a run
(smart_convert_v2.py lines 477-501). -/
structure ImportReport where
  metadata : ReportMetadata
  entries : List ImportEntry
  successful : List ConvertedAnime
  failedList : List FailedAnime
deriving DecidableEq

def mkEntry (ca : ConvertedAnime) : ImportEntry :=
  { mediaId := ca.mediaId, status := ca.status, progress := ca.progress, score := ca.score }

def buildReport (total : Nat) (st : RunState) : ImportReport :=
  { metadata :=
      { totalProcessed := total
        successfullyConverted := st.converted.length
        failed := st.failed.length
        skipped := st.skipped }
    entries := st.converted.map mkEntry
    successful := st.converted
    failedList := st.failed }

/-- `convert_to_anilist` restricted to its reconciliation core: parse
output is taken as the given candidate list, file writes are the
returned report. -/
def convertToAnilist (o : Oracles) (c0 : Cache) (animes : List Anime) : ImportReport :=
  buildReport animes.length (runConvert o c0 animes)

/-! ## ID-Mapping Loader and driver (`step2_map_to_anilist.py`) -/

/-- One object of the Fribb/anime-lists array, restricted to the two
fields `load_id_mapping` reads. -/
structure MapEntry where
  imdb_id : Option String
  anilist_id : Option Int
deriving DecidableEq, Repr

/-- Python `s.replace('tt', '')`: delete every (leftmost-first,
non-overlapping) occurrence of `tt`. -/
def removeTT : List Char → List Char
  | [] => []
  | 't' :: 't' :: rest => removeTT rest
  | c :: rest => c :: removeTT rest

/-- The normalized key `f'tt{imdb_clean}'` used to index the mapping. -/
def normalizeImdbKey (s : String) : String :=
  "tt" ++ (⟨removeTT s.data⟩ : String)

abbrev IdMapping : Type := List (String × Int)

def mapLookup (m : IdMapping) (k : String) : Option Int :=
  match m with
  | [] => none
  | (k', v) :: rest => if k' = k then some v else mapLookup rest k

/-- The loop body of `load_id_mapping` (step2_map_to_anilist.py lines
113-119): an entry contributes only when both fields are truthy (a
present, nonempty `imdb_id` and a present, nonzero `anilist_id`).
Prepending the later write makes lookup agree with the Python dict,
where later entries overwrite earlier ones. -/
def idMapStep (m : IdMapping) (e : MapEntry) : IdMapping :=
  match e.imdb_id, e.anilist_id with
  | some s, some n => if s ≠ "" ∧ n ≠ 0 then (normalizeImdbKey s, n) :: m else m
  | _, _ => m

def loadIdMapping (entries : List MapEntry) : IdMapping :=
  entries.foldl idMapStep []

/-- Outcome of the single mapping-table GET. -/
inductive FetchOutcome where
  | success (entries : List MapEntry)
  | httpFail (code : Nat)
  | exc
deriving DecidableEq

/-- `load_id_mapping` returns `True` only on an HTTP 200 download. -/
def loadIdMappingOk : FetchOutcome → Bool
  | .success _ => true
  | .httpFail _ => false
  | .exc => false

/-- A candidate as `step2`'s `convert_to_anilist` reads it from
`filtered_anime.json`. -/
structure Anime2 where
  title : String
  status : String
  score : Option Nat
  progress : Nat
  imdb : Option String
  sourceFile : String
deriving DecidableEq, Repr

/-- A `converted_anime` dict of step2 (lines 170-179). -/
structure Converted2 where
  mediaId : Int
  status : String
  progress : Nat
  originalTitle : String
  sourceFile : String
  imdb : Option String
  score : Option Nat
deriving DecidableEq, Repr

def truthyScore2 (a : Anime2) : Option Nat :=
  match a.score with
  | some s => if s = 0 then none else some s
  | none => none

def mkConverted2 (a : Anime2) (mediaId : Int) : Converted2 :=
  { mediaId := mediaId
    status := a.status
    progress := a.progress
    originalTitle := a.title
    sourceFile := a.sourceFile
    imdb := a.imdb
    score := truthyScore2 a }

/-- step2's network environment: the IMDB page scrape returning a
title/year pair and the AniList search endpoint keyed by the cache
key. -/
structure Oracles2 where
  imdbTitleYear : String → Option (String × Int)
  searchResp : String → SearchResponse

/-- The per-run state of step2's driver, with ghost call counters. -/
structure Run2State where
  cache : Cache
  imdbFetchCalls : Nat
  searchNetCalls : Nat
  converted : List Converted2
  failed : List Anime2
deriving DecidableEq

def initState2 (c : Cache) : Run2State :=
  { cache := c, imdbFetchCalls := 0, searchNetCalls := 0, converted := [], failed := [] }

/-- The cache key `f"{title}|{year}" if year else title` of step2's
`search_anilist_by_title`. -/
def cacheKey2 (title : String) (year : Int) : String :=
  if year ≠ 0 then title ++ "|" ++ toString year else title

/-- step2's `search_anilist_by_title` (lines 58-103): a cache hit is
returned as-is with no network traffic; otherwise the endpoint is
queried and a 200 response (first candidate or explicit `None`) is
cached. -/
def search2 (o : Oracles2) (c : Cache) (title : String) (year : Int) :
    Option MatchResult × Cache × Nat :=
  let key := cacheKey2 title year
  match cacheGet c key with
  | some v => (v, c, 0)
  | none =>
    match searchAnilistByTitle key (o.searchResp key) c with
    | (res, c') => (res, c', 1)

/-- One iteration of step2's conversion loop (lines 145-185): no IMDB id
fails immediately; a mapping hit is accepted with no title search; a
mapping miss falls back to the IMDB scrape plus title search; Python
truthiness makes a zero id fall through to the failure branch. -/
def processStep2One (o : Oracles2) (m : IdMapping) (st : Run2State) (a : Anime2) :
    Run2State :=
  match a.imdb with
  | none => { st with failed := st.failed ++ [a] }
  | some k =>
    if k = "" then { st with failed := st.failed ++ [a] }
    else
      let direct := mapLookup m k
      let fallback : Option Int × Cache × Nat × Nat :=
        match o.imdbTitleYear k with
        | some (t, y) =>
          if t ≠ "" then
            match search2 o st.cache t y with
            | (some r, c', n) => (some (r.id : Int), c', 1, n)
            | (none, c', n) => (none, c', 1, n)
          else (none, st.cache, 1, 0)
        | none => (none, st.cache, 1, 0)
      let resolved : Option Int × Cache × Nat × Nat :=
        match direct with
        | some aid => if aid = 0 then fallback else (some aid, st.cache, 0, 0)
        | none => fallback
      match resolved with
      | (some aid, c', di, dn) =>
        if aid = 0 then
          { st with cache := c', imdbFetchCalls := st.imdbFetchCalls + di
                    searchNetCalls := st.searchNetCalls + dn
                    failed := st.failed ++ [a] }
        else
          { st with cache := c', imdbFetchCalls := st.imdbFetchCalls + di
                    searchNetCalls := st.searchNetCalls + dn
                    converted := st.converted ++ [mkConverted2 a aid] }
      | (none, c', di, dn) =>
        { st with cache := c', imdbFetchCalls := st.imdbFetchCalls + di
                  searchNetCalls := st.searchNetCalls + dn
                  failed := st.failed ++ [a] }

/-- The summary document step2 writes (timestamp-free). -/
structure Report2 where
  total : Nat
  successful : List Converted2
  failedList : List Anime2
deriving DecidableEq

/-- step2's `convert_to_anilist` (lines 129-217): on a mapping-fetch
failure it prints and returns before reading the input, producing no
output document at all; otherwise it folds the conversion loop and
writes the report. -/
def step2Main (o : Oracles2) (fetch : FetchOutcome) (c0 : Cache) (animes : List Anime2) :
    Option Report2 :=
  match fetch with
  | .success entries =>
    let m := loadIdMapping entries
    let st := animes.foldl (processStep2One o m) (initState2 c0)
    some { total := animes.length, successful := st.converted, failedList := st.failed }
  | .httpFail _ => none
  | .exc => none

/-! ## Concrete fixtures used by the scenario theorems below -/

/-- A sample AniList media entry with the given id. -/
def exMr (n : Nat) : MatchResult :=
  { id := n, title := { english := some "T", romaji := none, native := none },
    year := some 2020, averageScore := none }

/-- An environment in which every search comes back 200 with an empty
result list and no IMDB/TMDB page resolves. -/
def exO0 : Oracles :=
  { imdbTitle := fun _ => none, tmdbTitle := fun _ => none, searchResp := fun _ => .ok [] }

/-- A candidate with only a title. -/
def exAnimeT (t : String) : Anime :=
  { title := t, status := "PLANNING", score := none, progress := 0,
    externalIds := {}, sourceFile := "neodb/tv_mark.csv" }

/-- The expanded search-title sequence the driver builds for a
candidate: the spec's `expandSearchTitles` as realised in the code. -/
def expandedTitlesFor (o : Oracles) (c : Cache) (a : Anime) : List String :=
  buildSearchAttempts (getBestEnglishTitle o c a).1 a.title

/-- Cache exhibiting a cached no-match for the raw title next to a
cached hit for its pre-`第` base. -/
def exC2cache : Cache := [("B第1", none), ("B", some (exMr 7))]

/-- Cache already holding a hit for the title `Foo`. -/
def exCFoo : Cache := [("Foo", some (exMr 7))]

/-- Environment for the re-run counterexample: two IMDB ids resolve to
titles, and only the search for `Neko` finds a match. -/
def exOBig : Oracles :=
  { imdbTitle := fun i => if i = "tt1" then some "Neko" else if i = "tt2" then some "猫第2季" else none
    tmdbTitle := fun _ => none
    searchResp := fun t => if t = "Neko" then .ok [exMr 7] else .ok [] }

def exCand1 : Anime :=
  { title := "猫第2季", status := "COMPLETED", score := some 9, progress := 0,
    externalIds := { imdb := some "tt1" }, sourceFile := "neodb/tv_mark.csv" }

def exCand2 : Anime :=
  { title := "犬", status := "PLANNING", score := none, progress := 0,
    externalIds := { imdb := some "tt2" }, sourceFile := "neodb/tv_mark.csv" }

/-- Environment for the second-run IMDB-refetch counterexample. -/
def exOK : Oracles :=
  { imdbTitle := fun i => if i = "tt9" then some "Kokoro" else none
    tmdbTitle := fun _ => none
    searchResp := fun t => if t = "Kokoro" then .ok [exMr 5] else .ok [] }

def exCandK : Anime :=
  { title := "こころ", status := "COMPLETED", score := none, progress := 0,
    externalIds := { imdb := some "tt9" }, sourceFile := "neodb/movie_mark.csv" }

/-- step2 environment in which no network lookup ever succeeds. -/
def exO2 : Oracles2 :=
  { imdbTitleYear := fun _ => none, searchResp := fun _ => .ok [] }

/-- The claim C3 scenario table: one entry mapping `tt1234567` to 99. -/
def exEntries : List MapEntry := [{ imdb_id := some "tt1234567", anilist_id := some 99 }]

/-- The claim C3 scenario candidate. -/
def exA3 : Anime2 :=
  { title := "Attack on Titan", status := "COMPLETED", score := some 9, progress := 0,
    imdb := some "tt1234567", sourceFile := "neodb/tv_mark.csv" }

/-! ## General lemmas -/

theorem strMem_iff (s : String) (l : List String) : strMem s l = true ↔ s ∈ l := by
  induction l with
  | nil => simp [strMem]
  | cons t rest ih =>
    simp [strMem, ih, List.mem_cons]

/-! ## Claim C4: three-valued cache read -/

/-- C4: the resolution cache read is three-valued — a never-written key
reads as NOT_PRESENT (`none`), a key written with a null reads as
`some none`, an unrelated write does not disturb other keys, and the
two outcomes are distinct values, hence distinguishable by every
consumer. -/
theorem cacheGet_three_valued :
    ∀ (k : String) (c : Cache),
      cacheGet emptyCache k = none ∧
      cacheGet (cachePut c k none) k = some none ∧
      some (none : Option MatchResult) ≠ (none : Option (Option MatchResult)) ∧
      ∀ k' : String, k' ≠ k → cacheGet (cachePut c k none) k' = cacheGet c k' := by
  intro k c
  refine ⟨rfl, ?_, by simp, ?_⟩
  · simp [cachePut, cacheGet]
  · intro k' hk
    simp [cachePut, cacheGet, Ne.symm hk]

/-- Witness for `cacheGet_three_valued` at concrete keys. -/
theorem cacheGet_three_valued_witness :
    cacheGet emptyCache "A" = none ∧
    cacheGet (cachePut emptyCache "A" none) "A" = some none ∧
    cacheGet (cachePut emptyCache "A" none) "B" = cacheGet emptyCache "B" :=
  ⟨(cacheGet_three_valued "A" emptyCache).1,
   (cacheGet_three_valued "A" emptyCache).2.1,
   (cacheGet_three_valued "A" emptyCache).2.2.2 "B" (by decide)⟩

/-! ## Claim C5: cache mutation discipline of the search client -/

/-- C5: `search_anilist_by_title` mutates the cache exactly on an HTTP
200 response — first candidate on a non-empty result set, an explicit
null on an empty one — while a rate-limit response, any other non-200
response and a transport exception leave the cache unchanged. -/
theorem searchAnilistByTitle_cache_discipline :
    ∀ (t : String) (c : Cache) (r : MatchResult) (rs : List MatchResult) (code : Nat),
      searchAnilistByTitle t (.ok (r :: rs)) c = (some r, cachePut c t (some r)) ∧
      searchAnilistByTitle t (.ok []) c = (none, cachePut c t none) ∧
      searchAnilistByTitle t .rateLimited c = (none, c) ∧
      searchAnilistByTitle t (.httpError code) c = (none, c) ∧
      searchAnilistByTitle t .exc c = (none, c) :=
  fun _ _ _ _ _ => ⟨rfl, rfl, rfl, rfl, rfl⟩

/-! ## Claim C8: the 進撃の巨人 scenario -/

/-- C8: the record with title 進撃の巨人, a bgm.tv link, status
`complete` and rating `"9"` is classified as a candidate, its status
converts to COMPLETED and its score parses to the integer 9. -/
theorem parseRow_scenario :
    parseRow "neodb/tv_mark.csv"
      { title := "進撃の巨人", links := "https://bgm.tv/subject/1",
        status := "complete", rating := "9" } =
    some { title := "進撃の巨人", status := "COMPLETED", score := some 9, progress := 0,
           externalIds := { bgm := some "1" }, sourceFile := "neodb/tv_mark.csv" } := by
  decide

/-! ## Claim C9: mapping-fetch failure -/

/-- C9 (amended): when the cross-reference table download fails,
`load_id_mapping` reports failure and step2's driver aborts before
reading any candidate, producing no report at all — there is no
title-search-only degraded run. -/
theorem step2_fetch_failure_no_report :
    ∀ (o : Oracles2) (c0 : Cache) (l : List Anime2) (code : Nat),
      loadIdMappingOk (.httpFail code) = false ∧
      loadIdMappingOk .exc = false ∧
      step2Main o (.httpFail code) c0 l = none ∧
      step2Main o .exc c0 l = none :=
  fun _ _ _ _ => ⟨rfl, rfl, rfl, rfl⟩

/-- C9 counterexample: on a failed fetch the run aborts with no output
document even though the candidate could have been resolved by title
search, refuting the claim that the run still completes with an
ImportReport. -/
theorem step2_fetch_failure_counterexample :
    step2Main exO2 (.httpFail 500) emptyCache [exA3] = none := rfl

/-! ## Claim C2: the all-cached null shortcut -/

/-- C2: with the raw title cached as a no-match and its pre-`第` base
cached as a hit (id 7), the base is among the candidate's expansions,
yet the driver records the candidate as failed with no network call —
the `all_cached and has_null_cache` shortcut never consults the
non-null cached expansion, contradicting the documented walk. -/
theorem cached_null_shortcut_overrides_hit :
    strMem "B" (expandedTitlesFor exO0 exC2cache (exAnimeT "B第1")) = true ∧
    cacheGet exC2cache "B" = some (some (exMr 7)) ∧
    (processAnime exO0 (initState exC2cache) (exAnimeT "B第1")).converted = [] ∧
    (processAnime exO0 (initState exC2cache) (exAnimeT "B第1")).failed =
      [mkFailed (exAnimeT "B第1") "B第1"] ∧
    (processAnime exO0 (initState exC2cache) (exAnimeT "B第1")).anilistCalls = 0 := by
  decide

/-! ## Claim C3: ID-mapping shortcut (step2) -/

theorem normalizeImdbKey_data (s : String) :
    (normalizeImdbKey s).data = 't' :: 't' :: (⟨removeTT s.data⟩ : String).data := by
  show (("tt" : String) ++ _).data = _
  rw [String.data_append]
  rfl

theorem idMapStep_mem (m : IdMapping) (e : MapEntry) (p : String × Int)
    (hp : p ∈ idMapStep m e) :
    p ∈ m ∨ (p.2 ≠ 0 ∧ listIsPrefixOf "tt".data p.1.data = true) := by
  obtain ⟨oi, oa⟩ := e
  cases oi with
  | none => exact Or.inl (by simpa [idMapStep] using hp)
  | some s =>
    cases oa with
    | none => exact Or.inl (by simpa [idMapStep] using hp)
    | some n =>
      by_cases h : s ≠ "" ∧ n ≠ 0
      · rw [show idMapStep m ⟨some s, some n⟩ = (normalizeImdbKey s, n) :: m from by
          simp [idMapStep, h]] at hp
        rcases List.mem_cons.mp hp with h1 | h1
        · subst h1
          refine Or.inr ⟨h.2, ?_⟩
          show listIsPrefixOf "tt".data (normalizeImdbKey s).data = true
          rw [normalizeImdbKey_data]
          simp [listIsPrefixOf]
        · exact Or.inl h1
      · rw [show idMapStep m ⟨some s, some n⟩ = m from by simp [idMapStep, h]] at hp
        exact Or.inl hp

theorem loadIdMapping_foldl_prop (entries : List MapEntry) :
    ∀ (m0 : IdMapping),
      (∀ p ∈ m0, p.2 ≠ 0 ∧ listIsPrefixOf "tt".data p.1.data = true) →
      ∀ p ∈ entries.foldl idMapStep m0, p.2 ≠ 0 ∧ listIsPrefixOf "tt".data p.1.data = true := by
  induction entries with
  | nil => intro m0 h p hp; exact h p hp
  | cons e rest ih =>
    intro m0 h p hp
    refine ih (idMapStep m0 e) ?_ p (by simpa using hp)
    intro q hq
    rcases idMapStep_mem m0 e q hq with h1 | h1
    · exact h q h1
    · exact h1

/-- Every pair in a loaded mapping has a nonzero id and a `tt`-prefixed
key. -/
theorem loadIdMapping_mem_prop (entries : List MapEntry) (p : String × Int)
    (hp : p ∈ loadIdMapping entries) :
    p.2 ≠ 0 ∧ listIsPrefixOf "tt".data p.1.data = true :=
  loadIdMapping_foldl_prop entries [] (by intro q hq; cases hq) p hp

theorem mapLookup_mem (m : IdMapping) (k : String) (v : Int)
    (h : mapLookup m k = some v) : (k, v) ∈ m := by
  induction m with
  | nil => simp [mapLookup] at h
  | cons q rest ih =>
    rcases q with ⟨k', v'⟩
    unfold mapLookup at h
    split at h
    next heq =>
      cases h
      exact heq ▸ List.mem_cons_self _ _
    next => exact List.mem_cons_of_mem _ (ih h)

theorem tt_key_ne_empty (k : String) (h : listIsPrefixOf "tt".data k.data = true) :
    k ≠ "" := by
  intro he
  subst he
  simp [listIsPrefixOf] at h

/-- C3: a candidate whose external IMDB id is found in the loaded
ID-mapping table is resolved directly — no IMDB page fetch, no title
search, no cache change — and the converted entry carries the table's
mapped id. -/
theorem idMapping_shortcut :
    ∀ (o : Oracles2) (entries : List MapEntry) (st : Run2State) (a : Anime2)
      (k : String) (aid : Int),
      a.imdb = some k →
      mapLookup (loadIdMapping entries) k = some aid →
      processStep2One o (loadIdMapping entries) st a =
        { st with converted := st.converted ++ [mkConverted2 a aid] } := by
  intro o entries st a k aid himdb hmap
  have hmem := mapLookup_mem _ _ _ hmap
  have hp := loadIdMapping_mem_prop entries _ hmem
  have hk : k ≠ "" := tt_key_ne_empty k hp.2
  have haid : aid ≠ 0 := hp.1
  unfold processStep2One
  rw [himdb]
  simp only [hmap, if_neg hk, if_neg haid]
  simp

/-- Witness for `idMapping_shortcut` at the claim's scenario: table
`{tt1234567: 99}` and a candidate carrying `tt1234567` yields the
mapped id 99 with zero title-search attempts. -/
theorem idMapping_shortcut_witness :
    exA3.imdb = some "tt1234567" ∧
    mapLookup (loadIdMapping exEntries) "tt1234567" = some 99 ∧
    processStep2One exO2 (loadIdMapping exEntries) (initState2 emptyCache) exA3 =
      { initState2 emptyCache with
        converted := (initState2 emptyCache).converted ++ [mkConverted2 exA3 99] } :=
  ⟨rfl, by decide,
   idMapping_shortcut exO2 exEntries (initState2 emptyCache) exA3 "tt1234567" 99 rfl (by decide)⟩

/-! ## Claim C10 counterexample: the double append -/

/-- C10 counterexample: a single candidate resolved through the
all-cached path is appended twice to the successful list, so the report
shows 2 successes, 0 failures, 1 processed — successes plus failures do
not equal the processed total. -/
theorem report_counts_counterexample :
    (convertToAnilist exO0 exCFoo [exAnimeT "Foo"]).metadata.successfullyConverted = 2 ∧
    (convertToAnilist exO0 exCFoo [exAnimeT "Foo"]).metadata.failed = 0 ∧
    (convertToAnilist exO0 exCFoo [exAnimeT "Foo"]).metadata.totalProcessed = 1 ∧
    (convertToAnilist exO0 exCFoo [exAnimeT "Foo"]).metadata.successfullyConverted +
        (convertToAnilist exO0 exCFoo [exAnimeT "Foo"]).metadata.failed ≠
      (convertToAnilist exO0 exCFoo [exAnimeT "Foo"]).metadata.totalProcessed := by
  decide

/-! ## Claim C1: re-running the driver -/

theorem walkAttempts_calls_le (o : Oracles) (ts : List String) :
    ∀ (c : Cache) (n : Nat), n ≤ (walkAttempts o c n ts).2.2 := by
  induction ts with
  | nil => intro c n; exact Nat.le_refl n
  | cons t rest ih =>
    intro c n
    simp only [walkAttempts]
    split
    · exact ih c n
    · split
      · exact Nat.le_refl n
      · exact ih c n
      · split
        · exact Nat.le_succ n
        · exact Nat.le_trans (Nat.le_succ n) (ih _ (n + 1))

theorem walkAttempts_zero_calls (o : Oracles) (ts : List String) :
    ∀ (c : Cache) (n : Nat),
      (walkAttempts o c n ts).2.2 = n → (walkAttempts o c n ts).2.1 = c := by
  induction ts with
  | nil => intro c n _; rfl
  | cons t rest ih =>
    intro c n h
    simp only [walkAttempts] at h ⊢
    by_cases ht : t = ""
    · simp only [if_pos ht] at h ⊢
      exact ih c n h
    · simp only [if_neg ht] at h ⊢
      cases hcg : cacheGet c t with
      | none =>
        simp only [hcg] at h ⊢
        rcases hse : searchAnilistByTitle t (o.searchResp t) c with ⟨res, c'⟩
        cases res with
        | some r =>
          simp only [hse] at h ⊢
          exact absurd h (by omega)
        | none =>
          simp only [hse] at h ⊢
          exact absurd h (by have := walkAttempts_calls_le o rest c' (n + 1); omega)
      | some v =>
        cases v with
        | none =>
          simp only [hcg] at h ⊢
          exact ih c n h
        | some r =>
          simp only [hcg] at h ⊢

theorem processAnime_calls_le (o : Oracles) (st : RunState) (a : Anime) :
    st.anilistCalls ≤ (processAnime o st a).anilistCalls := by
  simp only [processAnime]
  split
  · exact Nat.le_refl _
  · split
    · split
      · exact Nat.le_refl _
      · exact Nat.le_refl _
    · split
      · exact Nat.le_add_right _ _
      · exact Nat.le_add_right _ _

theorem processAnime_zero_calls (o : Oracles) (st : RunState) (a : Anime) :
    (processAnime o st a).anilistCalls = st.anilistCalls →
    (processAnime o st a).cache = st.cache := by
  simp only [processAnime]
  split
  · intro _; rfl
  · split
    · split
      · intro _; rfl
      · intro _; rfl
    · split
      · rename_i r c' dcalls heq
        intro h
        have h' : st.anilistCalls + dcalls = st.anilistCalls := h
        have hd : dcalls = 0 := by omega
        have h22 := congrArg (fun p => p.2.2) heq
        have h21 := walkAttempts_zero_calls o _ _ 0 (h22.trans hd)
        rw [heq] at h21
        exact h21
      · rename_i c' dcalls heq
        intro h
        have h' : st.anilistCalls + dcalls = st.anilistCalls := h
        have hd : dcalls = 0 := by omega
        have h22 := congrArg (fun p => p.2.2) heq
        have h21 := walkAttempts_zero_calls o _ _ 0 (h22.trans hd)
        rw [heq] at h21
        exact h21

theorem foldl_processAnime_calls_le (o : Oracles) (l : List Anime) :
    ∀ st : RunState, st.anilistCalls ≤ (l.foldl (processAnime o) st).anilistCalls := by
  induction l with
  | nil => intro st; exact Nat.le_refl _
  | cons a rest ih =>
    intro st
    simp only [List.foldl_cons]
    exact Nat.le_trans (processAnime_calls_le o st a) (ih (processAnime o st a))

theorem foldl_processAnime_zero_calls (o : Oracles) (l : List Anime) :
    ∀ st : RunState,
      (l.foldl (processAnime o) st).anilistCalls = st.anilistCalls →
      (l.foldl (processAnime o) st).cache = st.cache := by
  induction l with
  | nil => intro st _; rfl
  | cons a rest ih =>
    intro st h
    simp only [List.foldl_cons] at h ⊢
    have h1 : (processAnime o st a).anilistCalls = st.anilistCalls := by
      have hm1 := processAnime_calls_le o st a
      have hm2 := foldl_processAnime_calls_le o rest (processAnime o st a)
      omega
    have h2 := ih (processAnime o st a) (h.trans h1.symm)
    rw [h2, processAnime_zero_calls o st a h1]

/-- C1 (amended): the claimed byte-identical idempotence fails in
general, but the conditional core holds — a run that issues zero
AniList search calls leaves the cache exactly as it found it, and
re-running the driver from that cache reproduces the identical run:
the same report and again zero AniList search calls. -/
theorem runConvert_zero_calls_idempotent :
    ∀ (o : Oracles) (c0 : Cache) (l : List Anime),
      (runConvert o c0 l).anilistCalls = 0 →
      (runConvert o c0 l).cache = c0 ∧
      runConvert o ((runConvert o c0 l).cache) l = runConvert o c0 l ∧
      (runConvert o ((runConvert o c0 l).cache) l).anilistCalls = 0 ∧
      convertToAnilist o ((runConvert o c0 l).cache) l = convertToAnilist o c0 l := by
  intro o c0 l h
  have hc : (runConvert o c0 l).cache = c0 :=
    foldl_processAnime_zero_calls o l (initState c0) h
  refine ⟨hc, ?_, ?_, ?_⟩
  · rw [hc]
  · rw [hc]; exact h
  · rw [hc]

/-- Witness for `runConvert_zero_calls_idempotent`: with the single
candidate `Foo` already resolved in the cache, the first run issues
zero search calls and the theorem's conclusions hold. -/
theorem runConvert_zero_calls_idempotent_witness :
    (runConvert exO0 exCFoo [exAnimeT "Foo"]).anilistCalls = 0 ∧
    (runConvert exO0 exCFoo [exAnimeT "Foo"]).cache = exCFoo ∧
    convertToAnilist exO0 ((runConvert exO0 exCFoo [exAnimeT "Foo"]).cache) [exAnimeT "Foo"] =
      convertToAnilist exO0 exCFoo [exAnimeT "Foo"] :=
  ⟨by decide,
   (runConvert_zero_calls_idempotent exO0 exCFoo [exAnimeT "Foo"] (by decide)).1,
   (runConvert_zero_calls_idempotent exO0 exCFoo [exAnimeT "Foo"] (by decide)).2.2.2⟩

/-- C1 counterexample: after a completed first run (all responses HTTP
200), a second run over the same input and the cache left behind
produces a different report, still issues an AniList search call, and —
in a second scenario — re-issues an IMDB page fetch.  The re-run is
neither byte-identical nor network-silent. -/
theorem rerun_not_byte_identical :
    convertToAnilist exOBig ((runConvert exOBig emptyCache [exCand1, exCand2]).cache)
        [exCand1, exCand2] ≠
      convertToAnilist exOBig emptyCache [exCand1, exCand2] ∧
    (runConvert exOBig ((runConvert exOBig emptyCache [exCand1, exCand2]).cache)
        [exCand1, exCand2]).anilistCalls ≠ 0 ∧
    (runConvert exOK ((runConvert exOK emptyCache [exCandK]).cache) [exCandK]).imdbCalls ≠ 0 := by
  decide

/-! ## Claim C10: report count arithmetic -/

theorem processAnime_count_step (o : Oracles) (st : RunState) (a : Anime) :
    (processAnime o st a).converted.length + (processAnime o st a).failed.length
        + st.doubleAppends
      = st.converted.length + st.failed.length + 1 + (processAnime o st a).doubleAppends ∧
    (processAnime o st a).doubleAppends + st.skipped
      ≤ st.doubleAppends + (processAnime o st a).skipped := by
  simp only [processAnime]
  split
  · simp only [List.length_append, List.length_cons, List.length_nil]
    omega
  · split
    · split
      · simp only [List.length_append, List.length_cons, List.length_nil]
        omega
      · simp only [List.length_append, List.length_cons, List.length_nil]
        omega
    · split
      · simp only [List.length_append, List.length_cons, List.length_nil]
        omega
      · simp only [List.length_append, List.length_cons, List.length_nil]
        omega

theorem foldl_processAnime_counts (o : Oracles) (l : List Anime) :
    ∀ st : RunState,
      (l.foldl (processAnime o) st).converted.length
          + (l.foldl (processAnime o) st).failed.length + st.doubleAppends
        = st.converted.length + st.failed.length + l.length
          + (l.foldl (processAnime o) st).doubleAppends ∧
      (l.foldl (processAnime o) st).doubleAppends + st.skipped
        ≤ st.doubleAppends + (l.foldl (processAnime o) st).skipped := by
  induction l with
  | nil => intro st; simp
  | cons a rest ih =>
    intro st
    simp only [List.foldl_cons, List.length_cons]
    have h1 := processAnime_count_step o st a
    have h2 := ih (processAnime o st a)
    omega

/-- C10 (amended): candidates are appended to exactly one of the
successful and failed lists except those resolved through the
all-cached hit path, which are appended twice to the successful list;
hence successes plus failures equal the processed total plus the number
of double appends, and every double append is also counted in the
skipped tally (skipped is not a disjoint third category). -/
theorem report_counts :
    ∀ (o : Oracles) (c0 : Cache) (l : List Anime),
      (convertToAnilist o c0 l).metadata.successfullyConverted
          + (convertToAnilist o c0 l).metadata.failed
        = (convertToAnilist o c0 l).metadata.totalProcessed
          + (runConvert o c0 l).doubleAppends ∧
      (runConvert o c0 l).doubleAppends ≤ (convertToAnilist o c0 l).metadata.skipped := by
  intro o c0 l
  have h := foldl_processAnime_counts o l (initState c0)
  simp only [convertToAnilist, buildReport, runConvert, initState, List.length_nil] at h ⊢
  omega

/-! ## Claim C6: title expansion -/

theorem mem_if_append (b : Bool) (x y : String) (l : List String) (h : x ∈ l) :
    x ∈ (if b then l ++ [y] else l) := by
  cases b <;> simp [h]

theorem self_mem_if_append (y : String) (l : List String) :
    y ∈ (if !(strMem y l) then l ++ [y] else l) := by
  cases h : strMem y l
  · simp [h]
  · simp [h, (strMem_iff y l).mp h]

/-- C6 (amended): the expansion always contains the chosen english
title, the raw title, the all-parenthetical-groups-stripped variant and
— when the `第` marker occurs — the pre-marker base, it is deduplicated
order-preserving, and the `Foo (2020)` example expands to exactly
`["Foo (2020)", "Foo"]`; no `" / "` splitting is performed anywhere. -/
theorem buildSearchAttempts_contents :
    ∀ (e t : String),
      e ∈ buildSearchAttempts e t ∧
      t ∈ buildSearchAttempts e t ∧
      cleanOriginal t ∈ buildSearchAttempts e t ∧
      (t.data.contains '第' = true → baseTitle t ∈ buildSearchAttempts e t) ∧
      (buildSearchAttempts e t).Nodup ∧
      expandedTitlesFor exO0 emptyCache (exAnimeT "Foo (2020)") = ["Foo (2020)", "Foo"] := by
  intro e t
  simp only [buildSearchAttempts]
  set A2 : List String := if t = e then [e] else [e, t] with hA2
  set A3 : List String :=
    if t.data.contains '第' && !(strMem (baseTitle t) A2) then A2 ++ [baseTitle t] else A2
    with hA3
  have he2 : e ∈ A2 := by
    rw [hA2]; split <;> simp
  have ht2 : t ∈ A2 := by
    rw [hA2]; split
    · rename_i h; simp [h]
    · simp
  have hn2 : A2.Nodup := by
    rw [hA2]; split
    · simp
    · rename_i h
      simp only [List.nodup_cons, List.mem_singleton, List.not_mem_nil,
        not_false_iff, List.nodup_nil, and_true]
      exact fun hh => h hh.symm
  have he3 : e ∈ A3 := by rw [hA3]; exact mem_if_append _ _ _ _ he2
  have ht3 : t ∈ A3 := by rw [hA3]; exact mem_if_append _ _ _ _ ht2
  have hn3 : A3.Nodup := by
    rw [hA3]
    by_cases hb : (t.data.contains '第' && !(strMem (baseTitle t) A2)) = true
    · rw [if_pos hb]
      have hsb : strMem (baseTitle t) A2 = false := by
        rcases Bool.and_eq_true _ _ |>.mp hb with ⟨_, h2⟩
        simpa using h2
      have hnm : baseTitle t ∉ A2 := fun hmem => by
        rw [(strMem_iff _ _).mpr hmem] at hsb
        cases hsb
      simp [List.nodup_append, hn2, hnm]
    · rw [if_neg hb]; exact hn2
  refine ⟨mem_if_append _ _ _ _ he3, mem_if_append _ _ _ _ ht3,
    self_mem_if_append _ _, ?_, ?_, by decide⟩
  · intro hc
    cases hsb : strMem (baseTitle t) A2 with
    | true =>
      have : baseTitle t ∈ A3 := by
        rw [hA3]; exact mem_if_append _ _ _ _ ((strMem_iff _ _).mp hsb)
      exact mem_if_append _ _ _ _ this
    | false =>
      have hA3' : A3 = A2 ++ [baseTitle t] := by
        rw [hA3, if_pos (by rw [hc, hsb]; rfl)]
      have : baseTitle t ∈ A3 := by
        rw [hA3']; exact List.mem_append_right _ (List.mem_singleton_self _)
      exact mem_if_append _ _ _ _ this
  · cases hsc : strMem (cleanOriginal t) A3 with
    | true =>
      rw [if_neg (by simp [hsc])]
      exact hn3
    | false =>
      rw [if_pos (by simp [hsc])]
      have hnm : cleanOriginal t ∉ A3 := fun hmem => by
        rw [(strMem_iff _ _).mpr hmem] at hsc
        cases hsc
      simp [List.nodup_append, hn3, hnm]

/-- Witness for `buildSearchAttempts_contents` at a marker-bearing
title. -/
theorem buildSearchAttempts_contents_witness :
    ("猫第2季".data.contains '第' = true) ∧
    baseTitle "猫第2季" ∈ buildSearchAttempts "Neko" "猫第2季" :=
  ⟨by decide, (buildSearchAttempts_contents "Neko" "猫第2季").2.2.2.1 (by decide)⟩

/-- C6 counterexample: the expansion of `"Title A / Title B"` contains
neither segment (no `" / "` split exists in the code), and the
expansion of `"A (x) B (y)"` contains the all-groups-stripped `"A B"`
but not the trailing-group-only variant `"A (x) B"`. -/
theorem expand_missing_variants :
    strMem "Title A" (expandedTitlesFor exO0 emptyCache (exAnimeT "Title A / Title B")) = false ∧
    strMem "Title B" (expandedTitlesFor exO0 emptyCache (exAnimeT "Title A / Title B")) = false ∧
    strMem "A (x) B" (expandedTitlesFor exO0 emptyCache (exAnimeT "A (x) B (y)")) = false ∧
    strMem "A B" (expandedTitlesFor exO0 emptyCache (exAnimeT "A (x) B (y)")) = true := by
  decide

/-! ## Claim C7: the classifier contract -/

theorem authorCJK_contains (i : String) (h : authorCJK i = true) :
    containsSubstr i "author:" = true := by
  unfold authorCJK at h
  unfold containsSubstr
  revert h
  generalize i.data = cs
  induction cs with
  | nil => intro hh; simp [authorCJKGo] at hh
  | cons c tcs ih =>
    intro hh
    simp only [authorCJKGo, Bool.or_eq_true, Bool.and_eq_true] at hh
    simp only [listContainsSub, Bool.or_eq_true]
    rcases hh with ⟨h1, _⟩ | h2
    · exact Or.inl h1
    · exact Or.inr (ih h2)

/-- C7 (amended): `is_likely_manga` satisfies the claimed three-clause
contract exactly, while `is_likely_anime` additionally returns true
when the title contains kana characters or matches one of the season /
OVA / theatrical patterns, and has no annotation-author clause. -/
theorem classifier_vs_spec :
    ∀ (t i l : String),
      isLikelyManga t i l = classifySpec mangaKeywords t i l ∧
      isLikelyAnime t i l =
        (containsSubstr l "bgm.tv" ||
         animeKeywords.any (fun k => containsSubstr (lowerStr t) k) ||
         hasKana t || animePatterns t) := by
  intro t i l
  constructor
  · simp only [isLikelyManga, classifySpec]
    cases h1 : containsSubstr l "bgm.tv" with
    | true => simp
    | false =>
      cases h2 : mangaKeywords.any (fun k => containsSubstr (lowerStr t) k) with
      | true => simp
      | false =>
        cases h3 : containsSubstr i "author:" with
        | true => simp [h3]
        | false =>
          cases h4 : authorCJK i with
          | true => exact absurd (authorCJK_contains i h4) (by simp [h3])
          | false => simp [h3, h4]
  · simp only [isLikelyAnime]
    cases h1 : containsSubstr l "bgm.tv" <;>
      cases h2 : animeKeywords.any (fun k => containsSubstr (lowerStr t) k) <;>
        cases h3 : hasKana t <;>
          cases h4 : animePatterns t <;>
            simp [h1, h2, h3, h4]

/-- C7 counterexample: a kana-only title with empty annotation and
links is classified true by `is_likely_anime`, while the claimed
three-clause contract evaluates to false on the same input — the iff
fails on the code. -/
theorem kana_only_title_breaks_spec_iff :
    isLikelyAnime "あ" "" "" = true ∧ classifySpec animeKeywords "あ" "" "" = false := by
  decide

end NeodbApi
